import Mathlib

/-!
# Verification of the heatmap receiver client

A shallow embedding of `heatmapReciever/heatmap_client.py` and proofs about
its control phase, streaming loop, persistence and summary accounting.

Modelling conventions:

* Bytes are `Nat` values (each below 256 by construction of the decoder).
* The file system under (and outside) the output root is an association
  list from full path strings to byte lists with create-or-overwrite
  semantics (`fsWrite`); `List.lookup` reads it.
* A Python exception escaping a function is an `Except.error`; a caught
  exception that turns into a `return False` is `Except.ok false`.
* The WebSocket delivers a finite trace of inbound events (`Ev`): a parsed
  JSON message, a JSON parse failure, or a read timeout.  The receive
  loop consumes the trace until it breaks, exactly as the `while True`
  loop of `receive_frames` does.
* `pathlib.Path.write_bytes` may raise; the oracle `wOk : String → Bool`
  says which destination paths accept a write.  A failed write raises,
  which the loop's `except` clause turns into a `break`.
* The `metadata.txt` summary file is modelled structurally as the
  `metadata` field of the state: `some (frames_received, total_frames,
  output_dir)` once written.
-/

namespace Heatmap

/-! ## Base64 decoding (`base64.b64decode`)

Standard-alphabet base64: characters outside the alphabet are discarded
(as `binascii.a2b_base64` does in non-strict mode), the remaining text
must consist of 4-character groups, with `=` padding allowed only at the
very end.  `none` models the `binascii.Error` raised on invalid input. -/

/-- Value of one character of the standard base64 alphabet. -/
def b64Val (c : Char) : Option Nat :=
  if 'A' ≤ c ∧ c ≤ 'Z' then some (c.toNat - 65)
  else if 'a' ≤ c ∧ c ≤ 'z' then some (c.toNat - 97 + 26)
  else if '0' ≤ c ∧ c ≤ '9' then some (c.toNat - 48 + 52)
  else if c = '+' then some 62
  else if c = '/' then some 63
  else none

/-- Decode a filtered base64 text by 4-character groups. -/
def decodeQuads : List Char → Option (List Nat)
  | [] => some []
  | a :: b :: c :: d :: rest =>
    match b64Val a, b64Val b with
    | some va, some vb =>
      if c = '=' ∧ d = '=' ∧ rest = [] then
        some [va * 4 + vb / 16]
      else
        match b64Val c with
        | some vc =>
          if d = '=' ∧ rest = [] then
            some [va * 4 + vb / 16, (vb % 16) * 16 + vc / 4]
          else
            match b64Val d with
            | some vd =>
              (decodeQuads rest).map
                (fun t => (va * 4 + vb / 16) :: ((vb % 16) * 16 + vc / 4) ::
                  ((vc % 4) * 64 + vd) :: t)
            | none => none
        | none => none
    | _, _ => none
  | _ => none

/-- `base64.b64decode` on a Python `str`: discard foreign characters,
then decode; `none` is the raised `binascii.Error`. -/
def b64decode (s : String) : Option (List Nat) :=
  decodeQuads (s.toList.filter (fun c => (b64Val c).isSome || c == '='))

/-! ## URL scheme stripping (`HeatmapClient.__init__`)

`server_url.replace("http://", "").replace("https://", "")`: Python's
`str.replace` removes every non-overlapping occurrence, scanning left to
right. -/

/-- Python `s.replace(pat, "")` for a nonempty pattern: remove every
non-overlapping occurrence of `pat` from `s`, scanning left to right.
The fuel argument (any bound on the scan length, `stripAll` passes
`s.length`) only makes the recursion structural. -/
def stripOcc (pat : List Char) : Nat → List Char → List Char
  | _, [] => []
  | 0, s => s
  | fuel + 1, c :: cs =>
    if pat ≠ [] ∧ pat.isPrefixOf (c :: cs) then
      stripOcc pat fuel (List.drop (pat.length - 1) cs)
    else
      c :: stripOcc pat fuel cs

/-- Python `s.replace(pat, "")`. -/
def stripAll (pat s : List Char) : List Char :=
  stripOcc pat s.length s

/-- Whether `pat` occurs as a contiguous substring, by scanning every
position. -/
def occursB (pat : List Char) : List Char → Bool
  | [] => pat.isPrefixOf []
  | c :: cs => pat.isPrefixOf (c :: cs) || occursB pat cs

/-- The constructor's scheme stripping:
`url.replace("http://", "").replace("https://", "")`. -/
def stripSchemes (u : String) : String :=
  (stripAll ("https://".toList) (stripAll ("http://".toList) u.toList)).asString

/-- Modelled from the spec's words for claim C10: strip only a *leading*
scheme prefix, to be compared with the source's global replacement. -/
def stripLeadingScheme (u : String) : String :=
  if ("http://".toList).isPrefixOf u.toList then (u.toList.drop 7).asString
  else if ("https://".toList).isPrefixOf u.toList then (u.toList.drop 8).asString
  else u

/-! ## Client state -/

/-- The mutable state of one `HeatmapClient` session, together with the
modelled file system and a chronological log of the frame writes that
succeeded. -/
structure St where
  server_url : String
  output_dir : String
  frames_received : Nat
  total_frames : Nat
  /-- file system: full path ↦ bytes, newest entry first -/
  fs : List (String × List Nat)
  /-- chronological log of successful `write_bytes` calls for frames -/
  writes : List (String × List Nat)
  /-- the `metadata.txt` summary, once written:
  (frames_received, total_frames, output_dir) -/
  metadata : Option (Nat × Nat × String)
deriving Repr, DecidableEq

/-- `HeatmapClient.__init__`: strip the schemes from the server URL,
start both counters at zero; no file is written yet. -/
def mkSt (serverUrl outDir : String) : St :=
  { server_url := stripSchemes serverUrl
    output_dir := outDir
    frames_received := 0
    total_frames := 0
    fs := []
    writes := []
    metadata := none }

/-- Control endpoint of `initialize_backend`. -/
def initUrl (s : St) : String := "https://" ++ s.server_url ++ "/api/initialize"

/-- Control endpoint of `start_generation`. -/
def generateUrl (s : St) : String := "https://" ++ s.server_url ++ "/api/generate"

/-- Streaming endpoint of `receive_frames`. -/
def wsUrl (s : St) : String := "wss://" ++ s.server_url ++ "/ws/frames"

/-! ## Inbound messages and the receive loop -/

/-- One parsed JSON message, as the loop reads it with `data.get(...)`:
every field may be absent. -/
structure Msg where
  type : Option String
  index : Option Nat
  total : Option Nat
  filename : Option String
  timestamp : Option String
  /-- the base64 payload of a frame message -/
  data : Option String
  /-- the count carried by a complete message -/
  total_frames : Option Nat
deriving Repr, DecidableEq

/-- One inbound event of the streaming phase: a message whose JSON
parsed, a message whose JSON parse raised, or a read timeout
(`WebSocketTimeoutException`). -/
inductive Ev where
  | msg (m : Msg)
  | badJson
  | timeout
deriving Repr, DecidableEq

/-- `pathlib` join `output_dir / filename`: an absolute filename replaces
the root, otherwise the name is appended verbatim. -/
def pyJoin (dir name : String) : String :=
  if ['/'].isPrefixOf name.toList then name else dir ++ "/" ++ name

/-- Create-or-overwrite by name: the file system keeps exactly one entry
per path. -/
def fsWrite (fs : List (String × List Nat)) (k : String) (v : List Nat) :
    List (String × List Nat) :=
  (k, v) :: fs.filter (fun e => e.1 ≠ k)

/-- How one iteration of the `while True` loop ends. -/
inductive LoopRes where
  | cont
  | brkTimeout
  | brkError
  | brkComplete
deriving Repr, DecidableEq

/-- One iteration of the receive loop on one inbound event.  `wOk` says
which destination paths accept a `write_bytes` call; a refused write
raises, which the `except` clause turns into a break.  Mirrors the
dispatch on `data.get("type")`:
* a timeout breaks (`WebSocketTimeoutException` handler);
* a JSON parse failure breaks (generic `except` handler);
* `"status"` only prints;
* `"frame"` decodes the payload (`TypeError` on a missing `data` field,
  `binascii.Error` on bad base64, both break), joins the filename
  (missing filename breaks), writes, and then increments
  `frames_received`;
* `"complete"` breaks out of the loop, leaving `total_frames` untouched;
* any other discriminant matches no branch and the loop continues. -/
def step (wOk : String → Bool) (s : St) : Ev → St × LoopRes
  | .timeout => (s, .brkTimeout)
  | .badJson => (s, .brkError)
  | .msg m =>
    if m.type = some "status" then (s, .cont)
    else if m.type = some "frame" then
      match m.data with
      | none => (s, .brkError)
      | some payload =>
        match b64decode payload with
        | none => (s, .brkError)
        | some bytes =>
          match m.filename with
          | none => (s, .brkError)
          | some fn =>
            let p := pyJoin s.output_dir fn
            if wOk p then
              ({ s with
                  fs := fsWrite s.fs p bytes
                  writes := s.writes ++ [(p, bytes)]
                  frames_received := s.frames_received + 1 }, .cont)
            else (s, .brkError)
    else if m.type = some "complete" then (s, .brkComplete)
    else (s, .cont)

/-- How the receive loop terminated.  `drained` marks a trace that ended
without a break; a real session always ends in one of the other three,
since a blocking read either yields an event or times out. -/
inductive LoopExit where
  | timedOut
  | errored
  | completed
  | drained
deriving Repr, DecidableEq

/-- The `while True` loop of `receive_frames`, consuming the inbound
trace until a break. -/
def runLoop (wOk : String → Bool) (s : St) : List Ev → St × LoopExit
  | [] => (s, .drained)
  | e :: rest =>
    match step wOk s e with
    | (s', .cont) => runLoop wOk s' rest
    | (s', .brkTimeout) => (s', .timedOut)
    | (s', .brkError) => (s', .errored)
    | (s', .brkComplete) => (s', .completed)

/-- The `metadata.txt` write after the loop: the summary records the
current `frames_received`, the control-phase `total_frames` and the
output directory. -/
def writeMeta (s : St) : St :=
  { s with metadata := some (s.frames_received, s.total_frames, s.output_dir) }

/-- `receive_frames`: if `create_connection` succeeds, drain the loop and
then write the summary; if it raises, the outer `except` prints and
returns — no loop runs and no summary is written. -/
def receive_frames (wOk : String → Bool) (connectOk : Bool) (evs : List Ev)
    (s : St) : St × Option LoopExit :=
  if connectOk then
    let r := runLoop wOk s evs
    (writeMeta r.1, some r.2)
  else (s, none)

/-! ## Control phase -/

/-- An HTTP response to `POST /api/initialize`: a status code, and the
body's JSON parse outcome (`response.json()` may raise); the
`satellite_count` it may carry is only printed. -/
structure InitResp where
  status : Nat
  body : Except String Unit
deriving Repr

/-- An HTTP response to `POST /api/generate`: a status code, and on a
parsed body the optional `total_frames` field (`result.get` defaults
missing to `0`). -/
structure GenResp where
  status : Nat
  body : Except String (Option Nat)
deriving Repr

/-- `initialize_backend`.  `satRead` is the outcome of
`open(satellite_file)` + `json.load` — executed *before* the `try`
block, so its exception propagates.  `post` is the outcome of
`requests.post`: a transport error, or a response whose
`raise_for_status` (status ≥ 400) or `.json()` may raise; those three
are caught and become `return False`; success is `return True`. -/
def initialize_backend (satRead : Except String Unit)
    (post : Except String InitResp) : Except String Bool :=
  match satRead with
  | .error e => .error e
  | .ok _ =>
    .ok (match post with
      | .error _ => false
      | .ok r =>
        if 400 ≤ r.status then false
        else match r.body with
          | .error _ => false
          | .ok _ => true)

/-- `start_generation`: the whole request/response pipeline sits inside
the `try`, so nothing escapes; on success `self.total_frames` is set to
the response's `total_frames` (default `0`), on failure it keeps its
current value `cur`.  Returns (success flag, new `total_frames`). -/
def start_generation (post : Except String GenResp) (cur : Nat) : Bool × Nat :=
  match post with
  | .error _ => (false, cur)
  | .ok r =>
    if 400 ≤ r.status then (false, cur)
    else match r.body with
      | .error _ => (false, cur)
      | .ok b => (true, b.getD 0)

/-! ## The `main` driver -/

/-- How `main` ends: the three early `return`s of the control phase, or
a run that reached `receive_frames`. -/
inductive MainExit where
  | noSatFile
  | initFailed
  | genFailed
  | ranStream
deriving Repr, DecidableEq

/-- The tail of `main` once the control phase passed: call
`receive_frames` and print the closing banner. -/
def streamPhase (wOk : String → Bool) (connectOk : Bool) (evs : List Ev)
    (c : St) : Except String (St × MainExit) :=
  .ok ((receive_frames wOk connectOk evs c).1, .ranStream)

/-- The `start_generation` stage of `main`: skipped with
`--skip-generate`; on failure, early return before any stream is
opened. -/
def genPhase (skipGen : Bool) (genPost : Except String GenResp)
    (wOk : String → Bool) (connectOk : Bool) (evs : List Ev) (c : St) :
    Except String (St × MainExit) :=
  if skipGen then streamPhase wOk connectOk evs c
  else
    let r := start_generation genPost c.total_frames
    if r.1 then streamPhase wOk connectOk evs { c with total_frames := r.2 }
    else .ok (c, .genFailed)

/-- `main`: build the client, run the (possibly skipped) initialization
stage — whose missing `--satellite-file` and `False` results both early
return, and whose uncaught exception propagates — then the generation
stage, then the streaming phase. -/
def mainModel (serverUrl outDir : String) (skipInit satGiven : Bool)
    (satRead : Except String Unit) (initPost : Except String InitResp)
    (skipGen : Bool) (genPost : Except String GenResp)
    (wOk : String → Bool) (connectOk : Bool) (evs : List Ev) :
    Except String (St × MainExit) :=
  let c := mkSt serverUrl outDir
  if skipInit then genPhase skipGen genPost wOk connectOk evs c
  else if satGiven = false then .ok (c, .noSatFile)
  else match initialize_backend satRead initPost with
    | .error e => .error e
    | .ok false => .ok (c, .initFailed)
    | .ok true => genPhase skipGen genPost wOk connectOk evs c

/-! ## Path normalization (for the traversal claim)

The code never normalizes; these definitions only let the theorems state
where a written path really lands once the OS resolves `..` segments. -/

/-- Resolve `.`/`..`/empty segments of a relative path, accumulator in
reverse order. -/
def normSegs (acc : List String) : List String → List String
  | [] => acc.reverse
  | s :: rest =>
    if s = "" ∨ s = "." then normSegs acc rest
    else if s = ".." then
      match acc with
      | [] => normSegs [".."] rest
      | _ :: acc' => normSegs acc' rest
    else normSegs (s :: acc) rest

/-- Split a character list at every `'/'`. -/
def splitSlash (cur : List Char) : List Char → List String
  | [] => [cur.reverse.asString]
  | c :: cs =>
    if c = '/' then cur.reverse.asString :: splitSlash [] cs
    else splitSlash (c :: cur) cs

/-- The normalized segment list of a path string. -/
def normPath (p : String) : List String :=
  normSegs [] (splitSlash [] p.toList)

/-- Whether path `p`, once resolved, still lies under the root
directory. -/
def underRoot (root p : String) : Bool :=
  (normPath root).isPrefixOf (normPath p)

/-! ## Helper notions for the theorems -/

/-- Run the loop body over a trace that triggers no break, returning the
state it reaches; `none` if some event breaks the loop. -/
def runAll (wOk : String → Bool) (s : St) : List Ev → Option St
  | [] => some s
  | e :: rest =>
    match step wOk s e with
    | (s', .cont) => runAll wOk s' rest
    | _ => none

/-- A well-formed frame message: discriminant `"frame"`, all of index,
total, timestamp present, filename `fn`, and a `data` field `payload`
whose base64 decoding is `bytes`. -/
def wfFrame (m : Msg) (fn payload : String) (bytes : List Nat) : Prop :=
  m.type = some "frame" ∧ m.index.isSome = true ∧ m.total.isSome = true ∧
    m.timestamp.isSome = true ∧ m.filename = some fn ∧
    m.data = some payload ∧ b64decode payload = some bytes

instance (m : Msg) (fn payload : String) (bytes : List Nat) :
    Decidable (wfFrame m fn payload bytes) := by
  unfold wfFrame
  infer_instance

/-- Whether an inbound event is a frame message aimed at destination
path `p` when the output root is `d` (the only events that can touch
`p` in the file system). -/
def writesPath (d p : String) : Ev → Bool
  | .msg m =>
    decide (m.type = some "frame") &&
      match m.filename with
      | some fn => decide (pyJoin d fn = p)
      | none => false
  | _ => false

/-! ## File-system lemmas -/

theorem lookup_fsWrite_self (fs : List (String × List Nat)) (k : String)
    (v : List Nat) : (fsWrite fs k v).lookup k = some v := by
  simp [fsWrite, List.lookup]

theorem lookup_filter_ne {fs : List (String × List Nat)} {k k' : String}
    (h : k' ≠ k) :
    (fs.filter (fun e => e.1 ≠ k)).lookup k' = fs.lookup k' := by
  induction fs with
  | nil => rfl
  | cons e t ih =>
    simp only [ne_eq, decide_not] at ih
    obtain ⟨ek, ev⟩ := e
    by_cases he : ek = k
    · subst he
      have hk : (k' == ek) = false := beq_eq_false_iff_ne.2 h
      simp [List.filter_cons, List.lookup, hk, ih]
    · by_cases hke : k' = ek
      · subst hke
        simp [List.filter_cons, he, List.lookup]
      · have hk : (k' == ek) = false := beq_eq_false_iff_ne.2 hke
        simp [List.filter_cons, he, List.lookup, hk, ih]

theorem lookup_fsWrite_ne {fs : List (String × List Nat)} {k k' : String}
    {v : List Nat} (h : k' ≠ k) :
    (fsWrite fs k v).lookup k' = fs.lookup k' := by
  have hk : (k' == k) = false := by simp [h]
  simp only [fsWrite, List.lookup, hk]
  exact lookup_filter_ne h

theorem filter_filter_ne (fs : List (String × List Nat)) (k : String) :
    (fs.filter (fun e => e.1 ≠ k)).filter (fun e => e.1 = k) = [] := by
  induction fs with
  | nil => rfl
  | cons e t ih =>
    by_cases he : e.1 = k
    · simp [List.filter, he, ih]
    · simp [List.filter, he, ih]

theorem filter_fsWrite (fs : List (String × List Nat)) (k : String)
    (v : List Nat) :
    (fsWrite fs k v).filter (fun e => e.1 = k) = [(k, v)] := by
  simp [fsWrite, List.filter, filter_filter_ne]

/-! ## Loop invariant lemmas -/

theorem step_const (wOk : String → Bool) (s : St) (e : Ev) :
    (step wOk s e).1.output_dir = s.output_dir ∧
      (step wOk s e).1.server_url = s.server_url ∧
      (step wOk s e).1.total_frames = s.total_frames ∧
      (step wOk s e).1.metadata = s.metadata := by
  cases e with
  | timeout => exact ⟨rfl, rfl, rfl, rfl⟩
  | badJson => exact ⟨rfl, rfl, rfl, rfl⟩
  | msg m =>
    simp only [step]
    repeat' split
    all_goals simp

theorem step_writes (wOk : String → Bool) (s : St) (e : Ev) :
    ∃ nw, (step wOk s e).1.writes = s.writes ++ nw ∧
      (step wOk s e).1.frames_received = s.frames_received + nw.length := by
  cases e with
  | timeout => exact ⟨[], by simp [step], by simp [step]⟩
  | badJson => exact ⟨[], by simp [step], by simp [step]⟩
  | msg m =>
    simp only [step]
    repeat' split
    all_goals first
      | exact ⟨_, rfl, by simp⟩
      | exact ⟨[], by simp, by simp⟩

theorem runLoop_const (wOk : String → Bool) (evs : List Ev) (s : St) :
    (runLoop wOk s evs).1.output_dir = s.output_dir ∧
      (runLoop wOk s evs).1.server_url = s.server_url ∧
      (runLoop wOk s evs).1.total_frames = s.total_frames := by
  induction evs generalizing s with
  | nil => exact ⟨rfl, rfl, rfl⟩
  | cons e rest ih =>
    have hc := step_const wOk s e
    simp only [runLoop]
    rcases hs : step wOk s e with ⟨s', r⟩
    rw [hs] at hc
    cases r with
    | cont =>
      obtain ⟨h1, h2, h3⟩ := ih s'
      exact ⟨h1.trans hc.1, h2.trans hc.2.1, h3.trans hc.2.2.1⟩
    | brkTimeout => exact ⟨hc.1, hc.2.1, hc.2.2.1⟩
    | brkError => exact ⟨hc.1, hc.2.1, hc.2.2.1⟩
    | brkComplete => exact ⟨hc.1, hc.2.1, hc.2.2.1⟩

theorem runLoop_writes (wOk : String → Bool) (evs : List Ev) (s : St) :
    ∃ nw, (runLoop wOk s evs).1.writes = s.writes ++ nw ∧
      (runLoop wOk s evs).1.frames_received = s.frames_received + nw.length := by
  induction evs generalizing s with
  | nil => exact ⟨[], by simp [runLoop]⟩
  | cons e rest ih =>
    obtain ⟨nw1, hw1, hf1⟩ := step_writes wOk s e
    simp only [runLoop]
    rcases hs : step wOk s e with ⟨s', r⟩
    rw [hs] at hw1 hf1
    cases r with
    | cont =>
      obtain ⟨nw2, hw2, hf2⟩ := ih s'
      exact ⟨nw1 ++ nw2, by rw [hw2, hw1, List.append_assoc],
        by rw [hf2, hf1, List.length_append, Nat.add_assoc]⟩
    | brkTimeout => exact ⟨nw1, hw1, hf1⟩
    | brkError => exact ⟨nw1, hw1, hf1⟩
    | brkComplete => exact ⟨nw1, hw1, hf1⟩

theorem runAll_runLoop_append (wOk : String → Bool) {evs1 : List Ev}
    {s s1 : St} (evs2 : List Ev) (h : runAll wOk s evs1 = some s1) :
    runLoop wOk s (evs1 ++ evs2) = runLoop wOk s1 evs2 := by
  induction evs1 generalizing s with
  | nil =>
    simp only [runAll, Option.some.injEq] at h
    subst h
    rfl
  | cons e rest ih =>
    simp only [runAll] at h
    simp only [List.cons_append, runLoop]
    rcases hs : step wOk s e with ⟨s', r⟩
    rw [hs] at h
    cases r with
    | cont => exact ih h
    | brkTimeout => simp at h
    | brkError => simp at h
    | brkComplete => simp at h

theorem runAll_const (wOk : String → Bool) {evs : List Ev} {s s1 : St}
    (h : runAll wOk s evs = some s1) :
    s1.output_dir = s.output_dir ∧ s1.total_frames = s.total_frames := by
  induction evs generalizing s with
  | nil =>
    simp only [runAll, Option.some.injEq] at h
    subst h
    exact ⟨rfl, rfl⟩
  | cons e rest ih =>
    simp only [runAll] at h
    have hc := step_const wOk s e
    rcases hs : step wOk s e with ⟨s', r⟩
    rw [hs] at h hc
    cases r with
    | cont =>
      obtain ⟨h1, h2⟩ := ih h
      exact ⟨h1.trans hc.1, h2.trans hc.2.2.1⟩
    | brkTimeout => simp at h
    | brkError => simp at h
    | brkComplete => simp at h

theorem runLoop_lookup_preserved (wOk : String → Bool) {p : String}
    {v : List Nat} (evs : List Ev) (s : St) (hl : s.fs.lookup p = some v)
    (h : ∀ e ∈ evs, writesPath s.output_dir p e = false) :
    (runLoop wOk s evs).1.fs.lookup p = some v := by
  induction evs generalizing s with
  | nil => exact hl
  | cons e rest ih =>
    have htail : ∀ e' ∈ rest, writesPath s.output_dir p e' = false :=
      fun e' he' => h e' (List.mem_cons_of_mem _ he')
    simp only [runLoop]
    cases e with
    | timeout => exact hl
    | badJson => exact hl
    | msg m =>
      by_cases ht : m.type = some "status"
      · have hs : step wOk s (.msg m) = (s, .cont) := by simp [step, ht]
        rw [hs]
        exact ih s hl htail
      · by_cases hf : m.type = some "frame"
        · cases hd : m.data with
          | none =>
            have hs : step wOk s (.msg m) = (s, .brkError) := by
              simp [step, ht, hf, hd]
            rw [hs]
            exact hl
          | some payload =>
            cases hb : b64decode payload with
            | none =>
              have hs : step wOk s (.msg m) = (s, .brkError) := by
                simp [step, ht, hf, hd, hb]
              rw [hs]
              exact hl
            | some bytes =>
              cases hfn : m.filename with
              | none =>
                have hs : step wOk s (.msg m) = (s, .brkError) := by
                  simp [step, ht, hf, hd, hb, hfn]
                rw [hs]
                exact hl
              | some fn =>
                have hww := h (.msg m) (List.mem_cons_self _ _)
                have hne : p ≠ pyJoin s.output_dir fn := by
                  simp only [writesPath, hf, hfn, decide_eq_true_eq,
                    Bool.and_eq_false_iff, decide_eq_false_iff_not] at hww
                  rcases hww with hww | hww
                  · exact absurd trivial hww
                  · exact fun hp => hww (hp ▸ rfl)
                by_cases hw : wOk (pyJoin s.output_dir fn) = true
                · have hs : step wOk s (.msg m) =
                      ({ s with
                          fs := fsWrite s.fs (pyJoin s.output_dir fn) bytes
                          writes := s.writes ++
                            [(pyJoin s.output_dir fn, bytes)]
                          frames_received := s.frames_received + 1 },
                        .cont) := by
                    simp [step, ht, hf, hd, hb, hfn, hw]
                  rw [hs]
                  refine ih _ ?_ htail
                  exact (lookup_fsWrite_ne hne).trans hl
                · have hs : step wOk s (.msg m) = (s, .brkError) := by
                    simp [step, ht, hf, hd, hb, hfn, hw]
                  rw [hs]
                  exact hl
        · by_cases hc : m.type = some "complete"
          · have hs : step wOk s (.msg m) = (s, .brkComplete) := by
              simp [step, ht, hf, hc]
            rw [hs]
            exact hl
          · have hs : step wOk s (.msg m) = (s, .cont) := by
              simp [step, ht, hf, hc]
            rw [hs]
            exact ih s hl htail

/-- Processing one well-formed frame message whose destination accepts
the write: decode, write, count. -/
theorem step_frame (wOk : String → Bool) (s : St) {m : Msg}
    {fn payload : String} {bytes : List Nat}
    (hw : wfFrame m fn payload bytes)
    (hok : wOk (pyJoin s.output_dir fn) = true) :
    step wOk s (.msg m) =
      ({ s with
          fs := fsWrite s.fs (pyJoin s.output_dir fn) bytes
          writes := s.writes ++ [(pyJoin s.output_dir fn, bytes)]
          frames_received := s.frames_received + 1 }, .cont) := by
  obtain ⟨h1, -, -, -, h5, h6, h7⟩ := hw
  simp [step, h1, h5, h6, h7, hok]

/-! ## Claim theorems -/

/-- Claim C1 (confirmed).  For every well-formed frame message —
discriminant `"frame"`, index, total, filename, timestamp present, and
a `data` field that decodes as base64 to `bytes` — delivered exactly
once during the streaming phase (it is reached by the receive loop, and
no other event of the trace is a frame message resolving to the same
destination path) and whose destination accepts the write, the bytes
persisted under that filename at the end of `receive_frames` are
exactly the base64 decoding of the message's `data` field. -/
theorem c1_frame_roundtrip (wOk : String → Bool) (s0 s1 : St)
    (evs1 evs2 : List Ev) (m : Msg) (fn payload : String) (bytes : List Nat)
    (hw : wfFrame m fn payload bytes)
    (h1 : runAll wOk s0 evs1 = some s1)
    (hok : wOk (pyJoin s0.output_dir fn) = true)
    (h2 : ∀ e ∈ evs2,
      writesPath s0.output_dir (pyJoin s0.output_dir fn) e = false) :
    ((receive_frames wOk true (evs1 ++ .msg m :: evs2) s0).1).fs.lookup
      (pyJoin s0.output_dir fn) = some bytes := by
  obtain ⟨hdir, -⟩ := runAll_const wOk h1
  show (runLoop wOk s0 (evs1 ++ .msg m :: evs2)).1.fs.lookup
    (pyJoin s0.output_dir fn) = some bytes
  rw [runAll_runLoop_append wOk (Ev.msg m :: evs2) h1]
  have hok1 : wOk (pyJoin s1.output_dir fn) = true := by
    rw [hdir]
    exact hok
  simp only [runLoop]
  rw [step_frame wOk s1 hw hok1]
  show (runLoop wOk
    { s1 with
        fs := fsWrite s1.fs (pyJoin s1.output_dir fn) bytes
        writes := s1.writes ++ [(pyJoin s1.output_dir fn, bytes)]
        frames_received := s1.frames_received + 1 } evs2).1.fs.lookup
      (pyJoin s0.output_dir fn) = some bytes
  apply runLoop_lookup_preserved
  · show (fsWrite s1.fs (pyJoin s1.output_dir fn) bytes).lookup
      (pyJoin s0.output_dir fn) = some bytes
    rw [hdir]
    exact lookup_fsWrite_self _ _ _
  · intro e he
    show writesPath s1.output_dir (pyJoin s0.output_dir fn) e = false
    rw [hdir]
    exact h2 e he

/-- A concrete frame message used by the witnesses: frame 0 of 1,
payload `"YQ=="` (the single byte 97). -/
def mFrameA : Msg :=
  { type := some "frame", index := some 0, total := some 1
    filename := some "frame_0000.png", timestamp := some "2024-01-01T00:00:00"
    data := some "YQ==", total_frames := none }

/-- Witness for C1 at a concrete single-message trace. -/
theorem c1_witness :
    ((receive_frames (fun _ => true) true ([] ++ .msg mFrameA :: [])
        (mkSt "http://localhost:5000" "output/received_frames")).1).fs.lookup
      (pyJoin "output/received_frames" "frame_0000.png") = some [97] :=
  c1_frame_roundtrip (fun _ => true)
    (mkSt "http://localhost:5000" "output/received_frames")
    (mkSt "http://localhost:5000" "output/received_frames") [] [] mFrameA
    "frame_0000.png" "YQ==" [97] (by decide) rfl rfl
    (by intro e he; cases he)

/-- Claim C8 (confirmed).  `frames_received` starts at zero at client
construction, is monotonically non-decreasing across the receive loop,
and — whenever it equals the number of successfully persisted frames so
far (the length of the chronological write log) — it still does after
any further stretch of the loop: it is incremented exactly once per
successful frame write and only then. -/
theorem c8_counter_invariant (u d : String) (wOk : String → Bool)
    (evs : List Ev) (s : St) (h : s.frames_received = s.writes.length) :
    (mkSt u d).frames_received = 0 ∧ (mkSt u d).writes = [] ∧
      (runLoop wOk s evs).1.frames_received =
        (runLoop wOk s evs).1.writes.length ∧
      s.frames_received ≤ (runLoop wOk s evs).1.frames_received := by
  obtain ⟨nw, hwr, hfr⟩ := runLoop_writes wOk evs s
  refine ⟨rfl, rfl, ?_, ?_⟩
  · rw [hfr, hwr, List.length_append, h]
  · omega

/-- Witness for C8 on a concrete two-frame trace. -/
theorem c8_witness :
    (mkSt "http://localhost:5000" "out").frames_received = 0 ∧
      (mkSt "http://localhost:5000" "out").writes = [] ∧
      (runLoop (fun _ => true) (mkSt "http://localhost:5000" "out")
          [.msg mFrameA, .timeout]).1.frames_received =
        (runLoop (fun _ => true) (mkSt "http://localhost:5000" "out")
            [.msg mFrameA, .timeout]).1.writes.length ∧
      (mkSt "http://localhost:5000" "out").frames_received ≤
        (runLoop (fun _ => true) (mkSt "http://localhost:5000" "out")
            [.msg mFrameA, .timeout]).1.frames_received :=
  c8_counter_invariant "http://localhost:5000" "out" (fun _ => true)
    [.msg mFrameA, .timeout] (mkSt "http://localhost:5000" "out") rfl

/-- Claim C9 (confirmed).  Re-delivering the same frame message (same
filename, identical payload) twice yields exactly one artifact under
that name — the second write silently overwrites the first — whose
final content is the base64 decoding of the payload, and each delivery
is counted. -/
theorem c9_idempotent_redelivery (wOk : String → Bool) (s : St) (m : Msg)
    (fn payload : String) (bytes : List Nat)
    (hw : wfFrame m fn payload bytes)
    (hok : wOk (pyJoin s.output_dir fn) = true) :
    ((runLoop wOk s [.msg m, .msg m]).1).fs.lookup
        (pyJoin s.output_dir fn) = some bytes ∧
      (((runLoop wOk s [.msg m, .msg m]).1).fs.filter
          (fun e => e.1 = pyJoin s.output_dir fn)).length = 1 ∧
      ((runLoop wOk s [.msg m, .msg m]).1).frames_received =
        s.frames_received + 2 := by
  have e1 := step_frame wOk s hw hok
  have hok2 : wOk (pyJoin
      ({ s with
          fs := fsWrite s.fs (pyJoin s.output_dir fn) bytes
          writes := s.writes ++ [(pyJoin s.output_dir fn, bytes)]
          frames_received := s.frames_received + 1 } : St).output_dir fn) =
      true := hok
  have e2 := step_frame wOk _ hw hok2
  simp only [runLoop, e1, e2]
  refine ⟨lookup_fsWrite_self _ _ _, ?_, by trivial⟩
  simp [filter_fsWrite]

/-- Witness for C9: the concrete frame message delivered twice. -/
theorem c9_witness :
    ((runLoop (fun _ => true) (mkSt "http://localhost:5000" "out")
          [.msg mFrameA, .msg mFrameA]).1).fs.lookup
        (pyJoin "out" "frame_0000.png") = some [97] ∧
      (((runLoop (fun _ => true) (mkSt "http://localhost:5000" "out")
            [.msg mFrameA, .msg mFrameA]).1).fs.filter
          (fun e => e.1 = pyJoin "out" "frame_0000.png")).length = 1 ∧
      ((runLoop (fun _ => true) (mkSt "http://localhost:5000" "out")
            [.msg mFrameA, .msg mFrameA]).1).frames_received =
        (mkSt "http://localhost:5000" "out").frames_received + 2 :=
  c9_idempotent_redelivery (fun _ => true)
    (mkSt "http://localhost:5000" "out") mFrameA "frame_0000.png" "YQ=="
    [97] (by decide) rfl

/-- A frame message with a missing `data` field: `b64decode(None)`
raises `TypeError`. -/
def mBadFrame : Msg :=
  { type := some "frame", index := some 1, total := some 3
    filename := some "frame_0001.png", timestamp := some "2024-01-01T00:00:10"
    data := none, total_frames := none }

/-- A second valid frame message, payload `"Yg=="` (the byte 98). -/
def mFrameB : Msg :=
  { type := some "frame", index := some 2, total := some 3
    filename := some "frame_0002.png", timestamp := some "2024-01-01T00:00:20"
    data := some "Yg==", total_frames := none }

/-- A third valid frame message, payload `"Yw=="` (the byte 99). -/
def mFrameC : Msg :=
  { type := some "frame", index := some 2, total := some 3
    filename := some "frame_0003.png", timestamp := some "2024-01-01T00:00:30"
    data := some "Yw==", total_frames := none }

/-- A completion message claiming 3 total frames. -/
def mComplete3 : Msg :=
  { type := some "complete", index := none, total := none, filename := none
    timestamp := none, data := none, total_frames := some 3 }

/-- Counterexample to claim C2.  A valid frame, then a frame message
with no `data` field, then another valid frame: the malformed message
breaks the receive loop, so the second valid frame is never persisted
and the summary records only one frame — the claim's
log-and-continue behaviour does not hold. -/
theorem c2_counterexample :
    ((receive_frames (fun _ => true) true
          [.msg mFrameA, .msg mBadFrame, .msg mFrameB]
          (mkSt "http://localhost:5000" "out")).1).fs.lookup
        "out/frame_0002.png" = none ∧
      ((receive_frames (fun _ => true) true
            [.msg mFrameA, .msg mBadFrame, .msg mFrameB]
            (mkSt "http://localhost:5000" "out")).1).metadata =
        some (1, 0, "out") ∧
      (receive_frames (fun _ => true) true
          [.msg mFrameA, .msg mBadFrame, .msg mFrameB]
          (mkSt "http://localhost:5000" "out")).2 = some .errored := by
  decide

/-- Claim C2 (corrected).  A single malformed frame message (missing
`data` field) terminates the receive loop with an error break: the
frames processed before it are persisted and the summary — still
written — reflects exactly those; the events after it are never
processed. -/
theorem c2_malformed_breaks_loop (wOk : String → Bool) (s s1 : St)
    (evs1 evs2 : List Ev) (m : Msg) (hf : m.type = some "frame")
    (hd : m.data = none) (h1 : runAll wOk s evs1 = some s1) :
    runLoop wOk s (evs1 ++ .msg m :: evs2) = (s1, .errored) ∧
      (receive_frames wOk true (evs1 ++ .msg m :: evs2) s).1.metadata =
        some (s1.frames_received, s1.total_frames, s1.output_dir) := by
  have hbrk : runLoop wOk s (evs1 ++ .msg m :: evs2) = (s1, .errored) := by
    rw [runAll_runLoop_append wOk (Ev.msg m :: evs2) h1]
    have hs : step wOk s1 (.msg m) = (s1, .brkError) := by
      simp [step, hf, hd]
    simp only [runLoop, hs]
  refine ⟨hbrk, ?_⟩
  show (writeMeta (runLoop wOk s (evs1 ++ .msg m :: evs2)).1).metadata = _
  rw [hbrk]
  rfl

/-- Witness for the corrected C2 on the concrete three-message trace. -/
theorem c2_witness :
    runLoop (fun _ => true) (mkSt "http://localhost:5000" "out")
        ([.msg mFrameA] ++ .msg mBadFrame :: [.msg mFrameB]) =
      ((runAll (fun _ => true) (mkSt "http://localhost:5000" "out")
          [.msg mFrameA]).getD (mkSt "http://localhost:5000" "out"),
        .errored) ∧
      (receive_frames (fun _ => true) true
          ([.msg mFrameA] ++ .msg mBadFrame :: [.msg mFrameB])
          (mkSt "http://localhost:5000" "out")).1.metadata =
        some (((runAll (fun _ => true) (mkSt "http://localhost:5000" "out")
            [.msg mFrameA]).getD
            (mkSt "http://localhost:5000" "out")).frames_received,
          ((runAll (fun _ => true) (mkSt "http://localhost:5000" "out")
              [.msg mFrameA]).getD
              (mkSt "http://localhost:5000" "out")).total_frames,
          ((runAll (fun _ => true) (mkSt "http://localhost:5000" "out")
              [.msg mFrameA]).getD
              (mkSt "http://localhost:5000" "out")).output_dir) :=
  c2_malformed_breaks_loop (fun _ => true)
    (mkSt "http://localhost:5000" "out") _ [.msg mFrameA] [.msg mFrameB]
    mBadFrame rfl rfl rfl

/-- Counterexample to claim C3.  The control phase reported
`total_frames = 5`; three frames arrive and the `complete` message
carries `total_frames = 3`; the summary nevertheless records
`frames_expected = 5` — the control-phase value, not the completion
count the claim requires. -/
theorem c3_counterexample :
    ((mainModel "http://localhost:5000" "out" true true (.ok ())
          (.ok ⟨200, .ok ()⟩) false (.ok ⟨200, .ok (some 5)⟩)
          (fun _ => true) true
          [.msg mFrameA, .msg mFrameB, .msg mFrameC,
            .msg mComplete3]).toOption.map (fun r => r.1.metadata)) =
      some (some (3, 5, "out")) ∧
      ¬ ((mainModel "http://localhost:5000" "out" true true (.ok ())
            (.ok ⟨200, .ok ()⟩) false (.ok ⟨200, .ok (some 5)⟩)
            (fun _ => true) true
            [.msg mFrameA, .msg mFrameB, .msg mFrameC,
              .msg mComplete3]).toOption.map (fun r => r.1.metadata)) =
        some (some (3, 3, "out")) := by
  decide

/-- Claim C3 (corrected).  The summary's `frames_expected` always
equals the session's control-phase `total_frames`; the count carried by
a `complete` message is only printed and never stored, so it cannot
override the control-phase value. -/
theorem c3_summary_uses_control_total (wOk : String → Bool) (evs : List Ev)
    (s : St) :
    (receive_frames wOk true evs s).1.metadata =
      some ((runLoop wOk s evs).1.frames_received, s.total_frames,
        s.output_dir) := by
  obtain ⟨hdir, -, htot⟩ := runLoop_const wOk evs s
  show (writeMeta (runLoop wOk s evs).1).metadata = _
  simp [writeMeta, hdir, htot]

/-- A frame message whose filename escapes the output root. -/
def mEvil : Msg :=
  { type := some "frame", index := some 0, total := some 1
    filename := some "../../etc/passwd", timestamp := some "2024-01-01T00:00:00"
    data := some "YQ==", total_frames := none }

/-- Counterexample to claim C4.  A frame whose filename is
`../../etc/passwd` is not rejected: the bytes are written at
`output_dir/../../etc/passwd` — a path that resolves outside the
output root — the loop continues, and the frame is counted as received
rather than as a persistence error. -/
theorem c4_counterexample :
    (step (fun _ => true)
          (mkSt "http://localhost:5000" "output/received_frames")
          (.msg mEvil)).1.fs.lookup
        "output/received_frames/../../etc/passwd" = some [97] ∧
      underRoot "output/received_frames"
        "output/received_frames/../../etc/passwd" = false ∧
      (step (fun _ => true)
          (mkSt "http://localhost:5000" "output/received_frames")
          (.msg mEvil)).1.frames_received = 1 ∧
      (step (fun _ => true)
          (mkSt "http://localhost:5000" "output/received_frames")
          (.msg mEvil)).2 = .cont := by
  decide

/-- Claim C4 (corrected).  The code performs no filename validation at
all: for any well-formed frame message whose (relative) filename is
`fn`, the decoded bytes are written at `output_dir ++ "/" ++ fn` —
wherever that resolves, inside the root or not — and the frame is
counted as received, never as a persistence error. -/
theorem c4_no_sanitization (wOk : String → Bool) (s : St) (m : Msg)
    (fn payload : String) (bytes : List Nat)
    (hw : wfFrame m fn payload bytes)
    (hrel : (['/'].isPrefixOf fn.toList) = false)
    (hok : wOk (s.output_dir ++ "/" ++ fn) = true) :
    step wOk s (.msg m) =
      ({ s with
          fs := fsWrite s.fs (s.output_dir ++ "/" ++ fn) bytes
          writes := s.writes ++ [(s.output_dir ++ "/" ++ fn, bytes)]
          frames_received := s.frames_received + 1 }, .cont) := by
  have hp : pyJoin s.output_dir fn = s.output_dir ++ "/" ++ fn := by
    simp only [pyJoin, hrel]
    simp
  have h := step_frame wOk s hw (by rw [hp]; exact hok)
  rw [hp] at h
  exact h

/-- Witness for the corrected C4 at the traversal filename. -/
theorem c4_witness :
    step (fun _ => true)
        (mkSt "http://localhost:5000" "output/received_frames")
        (.msg mEvil) =
      ({ mkSt "http://localhost:5000" "output/received_frames" with
          fs := fsWrite
            (mkSt "http://localhost:5000" "output/received_frames").fs
            ((mkSt "http://localhost:5000"
                "output/received_frames").output_dir ++ "/" ++
              "../../etc/passwd") [97]
          writes := (mkSt "http://localhost:5000"
              "output/received_frames").writes ++
            [((mkSt "http://localhost:5000"
                "output/received_frames").output_dir ++ "/" ++
              "../../etc/passwd", [97])]
          frames_received := (mkSt "http://localhost:5000"
              "output/received_frames").frames_received + 1 }, .cont) :=
  c4_no_sanitization (fun _ => true)
    (mkSt "http://localhost:5000" "output/received_frames") mEvil
    "../../etc/passwd" "YQ==" [97] (by decide) (by decide) rfl

/-- Counterexample to claim C5.  Two terminal outcomes with no summary:
a stream-connection-open failure (the outer `except` returns without
writing `metadata.txt`), and a control-phase `initialize` failure
(HTTP 500 — `main` returns before `receive_frames` is ever called).
In both runs the session ends with `metadata = none`. -/
theorem c5_counterexample :
    ((mainModel "http://localhost:5000" "out" true true (.ok ())
          (.ok ⟨200, .ok ()⟩) true (.ok ⟨200, .ok none⟩) (fun _ => true)
          false []).toOption.map (fun r => (r.1.metadata, r.2))) =
      some (none, .ranStream) ∧
      ((mainModel "http://localhost:5000" "out" false true (.ok ())
            (.ok ⟨500, .ok ()⟩) true (.ok ⟨200, .ok none⟩) (fun _ => true)
            true []).toOption.map (fun r => (r.1.metadata, r.2))) =
        some (none, .initFailed) := by
  decide

/-- Claim C5 (corrected).  The summary is written exactly once whenever
the streaming connection opens and the loop terminates — whatever the
loop outcome — but *not* on every exit path: a connection-open failure
leaves the state's summary exactly as it was (never written), and a
control-phase failure never reaches `receive_frames` at all. -/
theorem c5_summary_only_after_loop (wOk : String → Bool) (evs : List Ev)
    (s : St) :
    ((receive_frames wOk true evs s).1.metadata).isSome = true ∧
      (receive_frames wOk false evs s).1.metadata = s.metadata := by
  exact ⟨rfl, rfl⟩

/-- Claim C7 (confirmed).  If the control phase fails — initialization
(when run) returns `False`, or the generation request (when run, after
a passed or skipped initialization) returns `False` — `main` ends in
the corresponding failed outcome with the freshly constructed client
state: no streaming parameters are even consulted, `frames_received`
is zero and no summary was written. -/
theorem c7_control_failure_skips_stream :
    (∀ (u d : String) (satRead : Except String Unit)
        (initPost : Except String InitResp) (skipGen : Bool)
        (genPost : Except String GenResp) (wOk : String → Bool) (co : Bool)
        (evs : List Ev),
      initialize_backend satRead initPost = .ok false →
        mainModel u d false true satRead initPost skipGen genPost wOk co
            evs = .ok (mkSt u d, .initFailed) ∧
          (mkSt u d).frames_received = 0 ∧ (mkSt u d).metadata = none) ∧
      (∀ (u d : String) (skipInit satGiven : Bool)
          (satRead : Except String Unit) (initPost : Except String InitResp)
          (genPost : Except String GenResp) (wOk : String → Bool) (co : Bool)
          (evs : List Ev),
        (skipInit = true ∨
          (satGiven = true ∧ initialize_backend satRead initPost = .ok true)) →
          (start_generation genPost 0).1 = false →
          mainModel u d skipInit satGiven satRead initPost false genPost wOk
              co evs = .ok (mkSt u d, .genFailed) ∧
            (mkSt u d).frames_received = 0 ∧ (mkSt u d).metadata = none) := by
  constructor
  · intro u d satRead initPost skipGen genPost wOk co evs h
    exact ⟨by simp [mainModel, h], rfl, rfl⟩
  · intro u d skipInit satGiven satRead initPost genPost wOk co evs hinit hg
    refine ⟨?_, rfl, rfl⟩
    rcases hinit with hskip | ⟨hsat, hok⟩
    · subst hskip
      simp [mainModel, genPhase, mkSt, hg]
    · subst hsat
      simp [mainModel, genPhase, mkSt, hok, hg]

/-- Witness for C7: a concrete HTTP-500 initialization failure. -/
theorem c7_witness :
    mainModel "http://localhost:5000" "out" false true (.ok ())
        (.ok ⟨500, .ok ()⟩) true (.ok ⟨200, .ok none⟩) (fun _ => true) true
        [] = .ok (mkSt "http://localhost:5000" "out", .initFailed) ∧
      (mkSt "http://localhost:5000" "out").frames_received = 0 ∧
      (mkSt "http://localhost:5000" "out").metadata = none :=
  c7_control_failure_skips_stream.1 "http://localhost:5000" "out" (.ok ())
    (.ok ⟨500, .ok ()⟩) true (.ok ⟨200, .ok none⟩) (fun _ => true) true []
    rfl

/-! ## Scheme-stripping lemmas (for claim C10) -/

theorem stripOcc_fuel (pat : List Char) :
    ∀ (fuel₁ fuel₂ : Nat) (s : List Char), s.length ≤ fuel₁ →
      s.length ≤ fuel₂ → stripOcc pat fuel₁ s = stripOcc pat fuel₂ s := by
  intro fuel₁
  induction fuel₁ with
  | zero =>
    intro fuel₂ s hs₁ _
    have : s = [] := List.eq_nil_of_length_eq_zero (Nat.le_zero.1 hs₁)
    subst this
    cases fuel₂ <;> rfl
  | succ fuel ih =>
    intro fuel₂ s hs₁ hs₂
    cases s with
    | nil => cases fuel₂ <;> rfl
    | cons c cs =>
      cases fuel₂ with
      | zero => simp at hs₂
      | succ f2 =>
        simp only [List.length_cons, Nat.succ_le_succ_iff] at hs₁ hs₂
        simp only [stripOcc]
        by_cases hcond : pat ≠ [] ∧ pat.isPrefixOf (c :: cs)
        · rw [if_pos hcond, if_pos hcond]
          exact ih f2 _ (Nat.le_trans (by simp) hs₁)
            (Nat.le_trans (by simp) hs₂)
        · rw [if_neg hcond, if_neg hcond]
          rw [ih f2 cs hs₁ hs₂]

theorem stripAll_of_not_occurs {pat : List Char} :
    ∀ {s : List Char}, occursB pat s = false → stripAll pat s = s := by
  intro s
  induction s with
  | nil => intro _; rfl
  | cons c cs ih =>
    intro h
    simp only [occursB, Bool.or_eq_false_iff] at h
    obtain ⟨h1, h2⟩ := h
    show stripOcc pat (cs.length + 1) (c :: cs) = c :: cs
    simp only [stripOcc]
    rw [if_neg (by simp [h1])]
    exact congrArg (c :: ·) (ih h2)

theorem stripAll_append_self {pat : List Char} (hp : pat ≠ [])
    (r : List Char) : stripAll pat (pat ++ r) = stripAll pat r := by
  cases pat with
  | nil => exact absurd rfl hp
  | cons p0 pt =>
    show stripOcc (p0 :: pt) ((p0 :: pt) ++ r).length ((p0 :: pt) ++ r) =
      stripAll (p0 :: pt) r
    have hlen : ((p0 :: pt) ++ r).length = (pt ++ r).length + 1 := by
      simp
    rw [hlen]
    show stripOcc (p0 :: pt) ((pt ++ r).length + 1) (p0 :: (pt ++ r)) = _
    simp only [stripOcc]
    rw [if_pos ⟨by simp, List.isPrefixOf_iff_prefix.2
      (by exact (List.prefix_append (p0 :: pt) r))⟩]
    have hdrop : List.drop ((p0 :: pt).length - 1) (pt ++ r) = r := by
      simp only [List.length_cons, Nat.add_sub_cancel]
      exact List.drop_left pt r
    rw [hdrop]
    exact stripOcc_fuel (p0 :: pt) _ _ r (by simp) (Nat.le_refl _)

/-- Scanning for `"http://"` inside `"https://" ++ r` finds exactly the
occurrences inside `r`: no occurrence can straddle the literal. -/
theorem occursB_http_in_https (r : List Char) :
    occursB ("http://".toList) ("https://".toList ++ r) =
      occursB ("http://".toList) r := rfl

/-- Counterexample to claim C10.  `str.replace` removes *every*
occurrence of the schemes, not only a leading prefix: for the URL
`http://h/http://x` the control endpoint the client actually targets
is `https://h/x/api/initialize`, not the
`https://h/http://x/api/initialize` that leading-prefix stripping
would give. -/
theorem c10_counterexample :
    initUrl (mkSt "http://h/http://x" "out") ≠
        "https://" ++ stripLeadingScheme "http://h/http://x" ++
          "/api/initialize" ∧
      initUrl (mkSt "http://h/http://x" "out") =
        "https://h/x/api/initialize" := by
  decide

/-- Claim C10 (corrected).  The constructor removes every occurrence of
`"http://"` and then of `"https://"` from the server URL (Python
`str.replace` with an empty replacement — global, not just a leading
prefix), and every endpoint is derived by prepending a fixed secure
scheme to the stripped host: `https://` for both control requests and
`wss://` for the stream, regardless of the scheme the caller supplied.
In particular, when the schemes occur only as a leading prefix, the
stripped host is exactly the URL without that prefix. -/
theorem c10_url_derivation :
    (∀ u d : String,
      (mkSt u d).server_url = stripSchemes u ∧
        initUrl (mkSt u d) = "https://" ++ stripSchemes u ++
          "/api/initialize" ∧
        generateUrl (mkSt u d) = "https://" ++ stripSchemes u ++
          "/api/generate" ∧
        wsUrl (mkSt u d) = "wss://" ++ stripSchemes u ++ "/ws/frames") ∧
      (∀ r : List Char, occursB ("http://".toList) r = false →
        occursB ("https://".toList) r = false →
        stripSchemes (("http://".toList ++ r).asString) = r.asString ∧
          stripSchemes (("https://".toList ++ r).asString) = r.asString) := by
  constructor
  · intro u d
    exact ⟨rfl, rfl, rfl, rfl⟩
  · intro r h1 h2
    have e3 : stripAll ("https://".toList) r = r := stripAll_of_not_occurs h2
    constructor
    · have e1 : stripAll ("http://".toList) ("http://".toList ++ r) =
          stripAll ("http://".toList) r := stripAll_append_self (by decide) r
      have e2 : stripAll ("http://".toList) r = r := stripAll_of_not_occurs h1
      show (stripAll ("https://".toList)
        (stripAll ("http://".toList)
          (("http://".toList ++ r).asString).toList)).asString = r.asString
      rw [List.toList_asString, e1, e2, e3]
    · have e1 : stripAll ("http://".toList) ("https://".toList ++ r) =
          "https://".toList ++ r :=
        stripAll_of_not_occurs (by rw [occursB_http_in_https]; exact h1)
      have e2 : stripAll ("https://".toList) ("https://".toList ++ r) =
          stripAll ("https://".toList) r := stripAll_append_self (by decide) r
      show (stripAll ("https://".toList)
        (stripAll ("http://".toList)
          (("https://".toList ++ r).asString).toList)).asString = r.asString
      rw [List.toList_asString, e1, e2, e3]

/-- Witness for the corrected C10 at a plain host name. -/
theorem c10_witness :
    stripSchemes (("http://".toList ++ "knox.dev".toList).asString) =
        ("knox.dev".toList).asString ∧
      stripSchemes (("https://".toList ++ "knox.dev".toList).asString) =
        ("knox.dev".toList).asString :=
  c10_url_derivation.2 ("knox.dev".toList) (by decide) (by decide)

end Heatmap
